import Mathlib

/-!
# BE-SafeJourney: the user repository (`models/users.models.js`)

A shallow embedding of the seven-function data-access layer over the single
`users` collection, and the properties of it that the specification states.

## Modelling conventions

* The collection is a list of documents in natural (insertion) order.  The
  MongoDB driver calls the source makes are embedded as list functions:
  `findOne` is the first match, `countDocuments` the length, `insertOne` an
  append, `updateOne` a rewrite of the first match, `find(...).toArray()` a
  filter.  Writes use the default write concern, so they are acknowledged.
* An `async` function becomes a function from the store to an `Outcome`: the
  value the promise settles with (`Except Rejection _`) and the store
  afterwards.  Opening and closing the client has no effect on the store and is
  left out.
* JavaScript numbers are `Int`.  The code does arithmetic only on the document
  count; coordinates and ids are stored, copied and compared for equality.
* The driver gives a document inserted without an `_id` a fresh one; it is
  the argument `oid` of `insertUser`, and no function reads it.
* The id parameters stand for the value after the coercion `+id` that every
  function applies before it queries.
* `name`, `phoneNumber` and `status` are tested for truthiness by the source and
  are primitive `JSValue`s; `start` and `end` are `Option Coord`, `none` being
  a missing (`undefined`) argument and `some c` an object, which is truthy.
-/

namespace SafeJourney

/-! ## Data model -/

/-- Primitive JavaScript values, as far as the source tests their truthiness. -/
inductive JSValue where
  | undefined
  | null
  | bool (b : Bool)
  | num (n : Int)
  | str (s : String)
deriving DecidableEq, Repr

/-- JavaScript truthiness (`!v` is its negation). -/
def JSValue.truthy : JSValue → Bool
  | .undefined => false
  | .null => false
  | .bool b => b
  | .num n => n != 0
  | .str s => s != ""

/-- A coordinate pair `{lat, long}`; `none` is `null`. -/
structure Coord where
  lat : Option Int
  long : Option Int
deriving DecidableEq, Repr

/-- The embedded `location` value `{status, start, current, end}`. -/
structure Location where
  status : Bool
  start : Coord
  current : Coord
  end_ : Coord
deriving DecidableEq, Repr

/-- A stored user document. -/
structure User where
  _id : Nat
  user_id : Int
  name : JSValue
  phoneNumber : JSValue
  location : Location
  friendList : List Int
deriving DecidableEq, Repr

/-- A document after `delete obj._id` and `delete obj.friendList`. -/
structure FriendSummary where
  user_id : Int
  name : JSValue
  phoneNumber : JSValue
  location : Location
deriving DecidableEq, Repr

/-- The request body handed to `insertUser`.  A missing field is `undefined`
for the two tested fields and `none` for the three the function overwrites. -/
structure UserInput where
  name : JSValue
  phoneNumber : JSValue
  location : Option Location
  friendList : Option (List Int)
  user_id : Option Int
deriving DecidableEq, Repr

/-- The `users` collection in natural order. -/
abbrev Store := List User

/-- What a promise of the repository rejects with. -/
inductive Rejection where
  /-- The value of `Promise.reject({status, msg})`. -/
  | http (status : Nat) (msg : String)
  /-- The value of `Promise.reject({})`. -/
  | empty
  /-- An error thrown by the MongoDB server and passed on unchanged; it has no
  `status` field. -/
  | serverError
deriving DecidableEq, Repr

/-- The settled promise together with the collection after the call. -/
structure Outcome (α : Type) where
  result : Except Rejection α
  store : Store

/-! ## The MongoDB driver calls used by the source -/

/-- The filter `{user_id: n}`. -/
def matchesUserId (n : Int) (d : User) : Bool := d.user_id == n

/-- The call `collection.findOne({user_id: n})`: the first match in natural order. -/
def findOne (s : Store) (n : Int) : Option User := s.find? (matchesUserId n)

/-- The call `collection.countDocuments()`. -/
def countDocuments (s : Store) : Nat := s.length

/-- The result object of a write, reduced to the field the source reads. -/
structure WriteResult where
  acknowledged : Bool
  store : Store

/-- The call `collection.insertOne(doc)`: the document is added last. -/
def insertOne (s : Store) (doc : User) : WriteResult :=
  { acknowledged := true, store := s ++ [doc] }

/-- Rewrite of the first document a predicate accepts; nothing changes when
there is none. -/
def updateFirst (p : User → Bool) (f : User → User) : Store → Store
  | [] => []
  | d :: ds => if p d then f d :: ds else d :: updateFirst p f ds

/-- The call `collection.updateOne({user_id: n}, {$set: ...})`, the `$set`
document being given by its effect `f` on the matched document.  The write is
acknowledged whether or not a document matched. -/
def updateOne (s : Store) (n : Int) (f : User → User) : WriteResult :=
  { acknowledged := true, store := updateFirst (matchesUserId n) f s }

/-- The call `collection.find({$or: filterQuery}).toArray()` for a
`filterQuery` of `{user_id: n}` clauses, given by their `n`s.  The server
refuses an empty `$or` array (it must be a nonempty array); otherwise the
matching documents come back in natural order. -/
def findOr (s : Store) (clauses : List Int) : Except Rejection (List User) :=
  match clauses with
  | [] => .error .serverError
  | _ :: _ => .ok (s.filter (fun d => clauses.any (fun n => matchesUserId n d)))

/-! ## The repository functions -/

/-- The location `insertUser` and the reset branch of `updateLocation` write. -/
def defaultLocation : Location :=
  { status := false
    start := { lat := none, long := none }
    current := { lat := none, long := none }
    end_ := { lat := none, long := none } }

/-- Embedding of `selectUserById`. -/
def selectUserById (s : Store) (id : Int) : Outcome User :=
  match findOne s id with
  | none => { result := .error (.http 404 "User not found"), store := s }
  | some user => { result := .ok user, store := s }

/-- Embedding of `insertUser`.  `oid` is the storage identifier the driver
gives the new document.  The source assigns `user.location`,
`user.friendList` and `user.user_id` before the insert, so what the input
carried in these three fields is never stored. -/
def insertUser (s : Store) (oid : Nat) (user : UserInput) : Outcome User :=
  if !user.name.truthy || !user.phoneNumber.truthy then
    { result := .error (.http 400 "Invalid input"), store := s }
  else
    let location := defaultLocation
    let friendList : List Int := []
    let count := countDocuments s
    let user_id : Int := (count : Int) + 1
    let doc : User :=
      { _id := oid, user_id := user_id, name := user.name,
        phoneNumber := user.phoneNumber, location := location,
        friendList := friendList }
    let w := insertOne s doc
    if w.acknowledged then
      selectUserById w.store user_id
    else
      { result := .error .empty, store := w.store }

/-- Embedding of `updateUserFriends`. -/
def updateUserFriends (s : Store) (id : Int) (new_id : Int) : Outcome Bool :=
  match (selectUserById s id).result with
  | .error e => { result := .error e, store := s }
  | .ok user =>
    let friendList := user.friendList ++ [new_id]
    let w := updateOne s id (fun d => { d with friendList := friendList })
    { result := .ok w.acknowledged, store := w.store }

/-- Embedding of `updateLocation`.  The source tests `!status` and then
`status`; `status` is not assigned in between, so exactly one of the two blocks
runs and `newLocation` is assigned whenever the `updateOne` is reached. -/
def updateLocation (s : Store) (status : JSValue) (start end_ : Option Coord)
    (user_id : Int) : Outcome Bool :=
  if !status.truthy then
    let newLocation := defaultLocation
    let w := updateOne s user_id (fun d => { d with location := newLocation })
    { result := .ok w.acknowledged, store := w.store }
  else
    match start, end_ with
    | some st, some en =>
      let newLocation : Location := { status := true, start := st, current := st, end_ := en }
      let w := updateOne s user_id (fun d => { d with location := newLocation })
      { result := .ok w.acknowledged, store := w.store }
    | _, _ => { result := .error (.http 400 "Bad request"), store := s }

/-- The two `delete`s of `fetchFriendList`. -/
def stripInternal (d : User) : FriendSummary :=
  { user_id := d.user_id, name := d.name, phoneNumber := d.phoneNumber,
    location := d.location }

/-- Embedding of `fetchFriendList`; the `catch` rejects with what it caught. -/
def fetchFriendList (s : Store) (id : Int) : Outcome (List FriendSummary) :=
  match (selectUserById s id).result with
  | .error e => { result := .error e, store := s }
  | .ok user =>
    let filterQuery := user.friendList.map (fun friend => (friend : Int))
    match findOr s filterQuery with
    | .error e => { result := .error e, store := s }
    | .ok data => { result := .ok (data.map stripInternal), store := s }

/-- Embedding of `updateCurrentLocation`. -/
def updateCurrentLocation (s : Store) (user_id : Int) (current : Coord) : Outcome Bool :=
  let w := updateOne s user_id
    (fun d => { d with location := { d.location with current := current } })
  { result := .ok w.acknowledged, store := w.store }

/-! ## Sequences of calls and the location invariant -/

/-- The pair `{lat: null, long: null}`. -/
def nullCoord : Coord := { lat := none, long := none }

/-- The location invariant of one document: a location whose `status` is
`false` has all three pairs equal to `{lat: null, long: null}`. -/
def locationOk (d : User) : Bool :=
  d.location.status ||
    (d.location.start == nullCoord && d.location.current == nullCoord &&
      d.location.end_ == nullCoord)

/-- The location invariant of the collection. -/
def LocationInvariant (s : Store) : Prop := ∀ d ∈ s, locationOk d = true

instance (s : Store) : Decidable (LocationInvariant s) := by
  unfold LocationInvariant; infer_instance

/-- One call of a writing repository function, with its arguments. -/
inductive Op where
  | insertUser (oid : Nat) (user : UserInput)
  | updateUserFriends (id new_id : Int)
  | updateLocation (status : JSValue) (start end_ : Option Coord) (user_id : Int)
  | updateCurrentLocation (user_id : Int) (current : Coord)
deriving DecidableEq, Repr

/-- The collection after one call, whether it resolved or rejected. -/
def Op.apply (s : Store) : Op → Store
  | .insertUser oid user => (SafeJourney.insertUser s oid user).store
  | .updateUserFriends id new_id => (SafeJourney.updateUserFriends s id new_id).store
  | .updateLocation status start end_ user_id =>
    (SafeJourney.updateLocation s status start end_ user_id).store
  | .updateCurrentLocation user_id current =>
    (SafeJourney.updateCurrentLocation s user_id current).store

/-- The collection after a sequence of calls, made one after the other. -/
def run (s : Store) : List Op → Store
  | [] => s
  | op :: ops => run (op.apply s) ops

/-- A call that cannot put a position into a reset location: every call but an
`updateCurrentLocation` is one, and an `updateCurrentLocation` is one when its
pair is `{lat: null, long: null}` or the document it addresses, if any, has
`status` `true`. -/
def Op.keepsReset (s : Store) : Op → Bool
  | .updateCurrentLocation user_id current =>
    current == nullCoord ||
      (match findOne s user_id with
       | some d => d.location.status
       | none => true)
  | _ => true

/-- Every call of the sequence keeps resets, each judged on the collection it
is made on. -/
def keepsResetAll (s : Store) : List Op → Bool
  | [] => true
  | op :: ops => op.keepsReset s && keepsResetAll (op.apply s) ops

/-! ## A sample collection -/

/-- A document with the default location, as `insertUser` would store it. -/
def sampleUser (n : Nat) (name phone : String) (friends : List Int) : User :=
  { _id := 100 + n, user_id := n, name := .str name, phoneNumber := .str phone,
    location := defaultLocation, friendList := friends }

/-- Six users with the ids `1` to `6`, the last with the friends `2, 3, 4`. -/
def sampleStore : Store :=
  [ sampleUser 1 "Gemma" "07900000001" [],
    { sampleUser 2 "Chris W" "07900000002" [1] with
      location := { status := true, start := ⟨some 53, some (-1)⟩,
                    current := ⟨some 54, some (-1)⟩, end_ := ⟨some 55, some (-2)⟩ } },
    sampleUser 3 "Chris L" "07900000003" [1, 2],
    sampleUser 4 "Aminah" "07900000004" [],
    sampleUser 5 "Dmitri" "07900000005" [6],
    sampleUser 6 "Rayhaan" "07900000006" [2, 3, 4] ]

/-- The request body `{name: "Johny English", phoneNumber: "07900000007"}`. -/
def johny : UserInput :=
  { name := .str "Johny English", phoneNumber := .str "07900000007",
    location := none, friendList := none, user_id := none }

/-- A collection of one document whose `user_id` is `2`: the id the next
`insertUser` will assign. -/
def gapStore : Store := [sampleUser 2 "Chris W" "07900000002" [1]]

/-- The sample collection after `johny` has registered. -/
def sampleStore7 : Store := (insertUser sampleStore 107 johny).store

/-! ## Lemmas on the driver calls -/

theorem updateFirst_length (p : User → Bool) (f : User → User) (s : Store) :
    (updateFirst p f s).length = s.length := by
  induction s with
  | nil => rfl
  | cons d ds ih =>
    unfold updateFirst
    by_cases h : p d = true
    · simp [h]
    · simp [h, ih]

theorem updateFirst_of_find?_none (p : User → Bool) (f : User → User) (s : Store)
    (h : s.find? p = none) : updateFirst p f s = s := by
  induction s with
  | nil => rfl
  | cons d ds ih =>
    unfold updateFirst
    by_cases hp : p d = true
    · simp [List.find?, hp] at h
    · simp only [List.find?, Bool.not_eq_true] at h hp
      rw [hp] at h
      simp [hp, ih h]

theorem find?_updateFirst (p : User → Bool) (f : User → User) (s : Store)
    (hf : ∀ d, p d = true → p (f d) = true) :
    (updateFirst p f s).find? p = (s.find? p).map f := by
  induction s with
  | nil => rfl
  | cons d ds ih =>
    unfold updateFirst
    by_cases hp : p d = true
    · simp [List.find?, hp, hf d hp]
    · simp [List.find?, hp, ih]

theorem filter_updateFirst (p q : User → Bool) (f : User → User) (s : Store)
    (hq : ∀ d, p d = true → q d = false ∧ q (f d) = false) :
    (updateFirst p f s).filter q = s.filter q := by
  induction s with
  | nil => rfl
  | cons d ds ih =>
    unfold updateFirst
    by_cases hp : p d = true
    · simp [hp, List.filter, (hq d hp).1, (hq d hp).2]
    · simp [hp, List.filter, ih]

theorem updateFirst_idem (p : User → Bool) (f g : User → User) (s : Store)
    (hp : ∀ d, p d = true → p (g d) = true) (hfg : ∀ d, f (g d) = f d) :
    updateFirst p f (updateFirst p g s) = updateFirst p f s := by
  induction s with
  | nil => rfl
  | cons d ds ih =>
    by_cases h : p d = true
    · simp [updateFirst, h, hp d h, hfg]
    · simp [updateFirst, h, ih]

theorem updateFirst_all (p : User → Bool) (f : User → User) (ok : User → Bool)
    (s : Store) (hs : ∀ d ∈ s, ok d = true)
    (hf : ∀ d, s.find? p = some d → ok (f d) = true) :
    ∀ d ∈ updateFirst p f s, ok d = true := by
  induction s with
  | nil => intro d hd; simp [updateFirst] at hd
  | cons x xs ih =>
    intro d hd
    by_cases h : p x = true
    · have hd2 : d = f x ∨ d ∈ xs := by simpa [updateFirst, h] using hd
      rcases hd2 with hd2 | hd2
      · rw [hd2]
        exact hf x (by simp [List.find?, h])
      · exact hs d (List.mem_cons_of_mem _ hd2)
    · have hd2 : d = x ∨ d ∈ updateFirst p f xs := by simpa [updateFirst, h] using hd
      rcases hd2 with hd2 | hd2
      · rw [hd2]
        exact hs _ (List.mem_cons_self _ _)
      · refine ih (fun y hy => hs y (List.mem_cons_of_mem _ hy)) ?_ d hd2
        intro y hy
        apply hf y
        simp only [Bool.not_eq_true] at h
        simp [List.find?, h, hy]

theorem findOne_some_mem (s : Store) (n : Int) (d : User) (h : findOne s n = some d) :
    d ∈ s ∧ d.user_id = n := by
  unfold findOne at h
  refine ⟨List.mem_of_find?_eq_some h, ?_⟩
  have := List.find?_some h
  simpa [matchesUserId] using this

theorem findOne_eq_none_iff (s : Store) (n : Int) :
    findOne s n = none ↔ ¬ ∃ d ∈ s, d.user_id = n := by
  unfold findOne
  rw [List.find?_eq_none]
  simp [matchesUserId]

/-! ## `selectUserById` -/

/-- C7: `selectUserById` returns a stored document whose `user_id` is the
requested number when the collection has one, rejects with
`{status: 404, msg: "User not found"}` exactly when it has none, and leaves the
collection as it was. -/
theorem selectUserById_spec (s : Store) (id : Int) :
    ((∃ d ∈ s, d.user_id = id) →
        ∃ d, (selectUserById s id).result = .ok d ∧ d ∈ s ∧ d.user_id = id) ∧
    ((selectUserById s id).result = .error (.http 404 "User not found") ↔
        ¬ ∃ d ∈ s, d.user_id = id) ∧
    (selectUserById s id).store = s := by
  unfold selectUserById
  cases h : findOne s id with
  | none =>
    have hn := (findOne_eq_none_iff s id).mp h
    exact ⟨fun he => absurd he hn, ⟨fun _ => hn, fun _ => rfl⟩, rfl⟩
  | some d =>
    have hm := findOne_some_mem s id d h
    refine ⟨fun _ => ⟨d, rfl, hm.1, hm.2⟩, ⟨fun he => ?_, fun hn => ?_⟩, rfl⟩
    · simp at he
    · exact absurd ⟨d, hm.1, hm.2⟩ hn

/-! ## `insertUser` -/

/-- C6: when `name` or `phoneNumber` is missing or falsy, `insertUser` rejects
with `{status: 400, msg: "Invalid input"}` and the collection is unchanged, so
its document count is too. -/
theorem insertUser_invalid (s : Store) (oid : Nat) (user : UserInput)
    (h : user.name.truthy = false ∨ user.phoneNumber.truthy = false) :
    (insertUser s oid user).result = .error (.http 400 "Invalid input") ∧
    (insertUser s oid user).store = s ∧
    countDocuments (insertUser s oid user).store = countDocuments s := by
  have hc : (!user.name.truthy || !user.phoneNumber.truthy) = true := by
    rcases h with h | h <;> simp [h]
  unfold insertUser
  rw [if_pos hc]
  exact ⟨rfl, rfl, rfl⟩

/-- Witness of C6: the body `{phoneNumber: "07900000007"}` on the sample
collection. -/
theorem insertUser_invalid_witness :
    ((JSValue.undefined).truthy = false ∨ (JSValue.str "07900000007").truthy = false) ∧
    (insertUser sampleStore 107 { johny with name := .undefined }).result
      = .error (.http 400 "Invalid input") ∧
    (insertUser sampleStore 107 { johny with name := .undefined }).store = sampleStore ∧
    countDocuments (insertUser sampleStore 107 { johny with name := .undefined }).store
      = countDocuments sampleStore :=
  ⟨Or.inl rfl, insertUser_invalid sampleStore 107 { johny with name := .undefined } (Or.inl rfl)⟩

/-! ## `updateUserFriends` -/

/-- C2: when the collection has a user with the given id whose stored
`friendList` is `L`, `updateUserFriends` resolves with `acknowledged = true`
and afterwards that user is stored with the `friendList` `L` followed by the
new id, and is otherwise as before; nothing is asked of the new id. -/
theorem updateUserFriends_appends (s : Store) (id new_id : Int) (d : User) (L : List Int)
    (h : findOne s id = some d) (hL : d.friendList = L) :
    (updateUserFriends s id new_id).result = .ok true ∧
    findOne (updateUserFriends s id new_id).store id
      = some { d with friendList := L ++ [new_id] } := by
  subst hL
  have hsel : (selectUserById s id).result = .ok d := by
    unfold selectUserById; rw [h]
  unfold updateUserFriends
  rw [hsel]
  refine ⟨rfl, ?_⟩
  show findOne (updateFirst (matchesUserId id) _ s) id = _
  unfold findOne at h ⊢
  rw [find?_updateFirst _ _ _ (fun x hx => by simpa [matchesUserId] using hx), h]
  rfl

/-- Witness of C2: user 6 of the sample collection, friends `[2, 3, 4]`, gets
the friend `1` and has `[2, 3, 4, 1]`. -/
theorem updateUserFriends_appends_witness :
    (updateUserFriends sampleStore 6 1).result = .ok true ∧
    findOne (updateUserFriends sampleStore 6 1).store 6
      = some { sampleUser 6 "Rayhaan" "07900000006" [2, 3, 4] with
               friendList := [2, 3, 4] ++ [1] } :=
  updateUserFriends_appends sampleStore 6 1
    (sampleUser 6 "Rayhaan" "07900000006" [2, 3, 4]) [2, 3, 4] (by decide) rfl

/-! ## `updateLocation` -/

/-- C3: when the collection has a user with the given id and both `start` and
`end` are passed, `updateLocation(true, start, end, id)` resolves acknowledged
and that user is stored with the location
`{status: true, start: start, current: start, end: end}`, whatever it was. -/
theorem updateLocation_start (s : Store) (st en : Coord) (u : Int) (d : User)
    (h : findOne s u = some d) :
    (updateLocation s (.bool true) (some st) (some en) u).result = .ok true ∧
    findOne (updateLocation s (.bool true) (some st) (some en) u).store u
      = some { d with location :=
                { status := true, start := st, current := st, end_ := en } } := by
  refine ⟨rfl, ?_⟩
  show findOne (updateFirst (matchesUserId u) _ s) u = _
  unfold findOne at h ⊢
  rw [find?_updateFirst _ _ _ (fun x hx => by simpa [matchesUserId] using hx), h]
  rfl

/-- Witness of C3: user 6 of the sample collection starts a journey from
`(1, 1)` to `(2, 2)`. -/
theorem updateLocation_start_witness :
    (updateLocation sampleStore (.bool true) (some ⟨some 1, some 1⟩)
        (some ⟨some 2, some 2⟩) 6).result = .ok true ∧
    findOne (updateLocation sampleStore (.bool true) (some ⟨some 1, some 1⟩)
        (some ⟨some 2, some 2⟩) 6).store 6
      = some { sampleUser 6 "Rayhaan" "07900000006" [2, 3, 4] with location :=
                { status := true, start := ⟨some 1, some 1⟩,
                  current := ⟨some 1, some 1⟩, end_ := ⟨some 2, some 2⟩ } } :=
  updateLocation_start sampleStore ⟨some 1, some 1⟩ ⟨some 2, some 2⟩ 6
    (sampleUser 6 "Rayhaan" "07900000006" [2, 3, 4]) (by decide)

/-- C4: for a truthy `status` with `start` or `end` missing, `updateLocation`
rejects with `{status: 400, msg: "Bad request"}` and writes nothing: the
collection after the call is the collection before it. -/
theorem updateLocation_missing (s : Store) (status : JSValue) (start end_ : Option Coord)
    (user_id : Int) (hs : status.truthy = true) (hm : start = none ∨ end_ = none) :
    (updateLocation s status start end_ user_id).result
      = .error (.http 400 "Bad request") ∧
    (updateLocation s status start end_ user_id).store = s := by
  unfold updateLocation
  simp only [hs, Bool.not_true, Bool.false_eq_true, if_false]
  rcases hm with hm | hm
  · subst hm; exact ⟨rfl, rfl⟩
  · subst hm; cases start <;> exact ⟨rfl, rfl⟩

/-- Witness of C4: `status` `true` and an `end` but no `start`, for user 6 of
the sample collection. -/
theorem updateLocation_missing_witness :
    (JSValue.bool true).truthy = true ∧
    ((none : Option Coord) = none ∨ some (⟨some 2, some 2⟩ : Coord) = none) ∧
    (updateLocation sampleStore (.bool true) none (some ⟨some 2, some 2⟩) 6).result
      = .error (.http 400 "Bad request") ∧
    (updateLocation sampleStore (.bool true) none (some ⟨some 2, some 2⟩) 6).store
      = sampleStore :=
  ⟨rfl, Or.inl rfl,
    updateLocation_missing sampleStore (.bool true) none (some ⟨some 2, some 2⟩) 6 rfl
      (Or.inl rfl)⟩

/-- C5: when the collection has a user with the given id,
`updateLocation(false, start, end, id)` leaves that user with the location
`{status: false}` and three `{lat: null, long: null}` pairs, whatever the
location was and whatever `start` and `end` are, and a second reset changes
nothing. -/
theorem updateLocation_reset (s : Store) (start end_ start2 end2 : Option Coord) (u : Int)
    (d : User) (h : findOne s u = some d) :
    findOne (updateLocation s (.bool false) start end_ u).store u
      = some { d with location :=
                { status := false, start := { lat := none, long := none },
                  current := { lat := none, long := none },
                  end_ := { lat := none, long := none } } } ∧
    (updateLocation (updateLocation s (.bool false) start end_ u).store
        (.bool false) start2 end2 u).store
      = (updateLocation s (.bool false) start end_ u).store := by
  constructor
  · show findOne (updateFirst (matchesUserId u) _ s) u = _
    unfold findOne at h ⊢
    rw [find?_updateFirst _ _ _ (fun x hx => by simpa [matchesUserId] using hx), h]
    rfl
  · show updateFirst (matchesUserId u) _ (updateFirst (matchesUserId u) _ s)
      = updateFirst (matchesUserId u) _ s
    exact updateFirst_idem _ _ _ s (fun x hx => by simpa [matchesUserId] using hx)
      (fun _ => rfl)

/-- Witness of C5: user 2 of the sample collection, who is on a journey, is
reset. -/
theorem updateLocation_reset_witness :
    findOne (updateLocation sampleStore (.bool false) none none 2).store 2
      = some { sampleUser 2 "Chris W" "07900000002" [1] with location :=
                { status := false, start := { lat := none, long := none },
                  current := { lat := none, long := none },
                  end_ := { lat := none, long := none } } } ∧
    (updateLocation (updateLocation sampleStore (.bool false) none none 2).store
        (.bool false) (some ⟨some 1, some 1⟩) none 2).store
      = (updateLocation sampleStore (.bool false) none none 2).store := by
  have h := updateLocation_reset sampleStore none none (some ⟨some 1, some 1⟩) none 2
    { sampleUser 2 "Chris W" "07900000002" [1] with
      location := { status := true, start := ⟨some 53, some (-1)⟩,
                    current := ⟨some 54, some (-1)⟩, end_ := ⟨some 55, some (-2)⟩ } }
    (by decide)
  exact h

/-! ## `updateCurrentLocation` -/

/-- C9: `updateCurrentLocation` always resolves acknowledged.  A user with the
given id gets the new `location.current` and keeps its `status`, `start`,
`end`, name, phone number and friend list; the documents of every other id are
the same, in the same order; and when no user has the id the collection is
unchanged. -/
theorem updateCurrentLocation_frame (s : Store) (u : Int) (c : Coord) :
    (updateCurrentLocation s u c).result = .ok true ∧
    (∀ d, findOne s u = some d →
      findOne (updateCurrentLocation s u c).store u
        = some { d with location := { d.location with current := c } }) ∧
    (∀ v, v ≠ u →
      (updateCurrentLocation s u c).store.filter (matchesUserId v)
        = s.filter (matchesUserId v)) ∧
    (updateCurrentLocation s u c).store.length = s.length ∧
    (findOne s u = none → (updateCurrentLocation s u c).store = s) := by
  refine ⟨rfl, ?_, ?_, ?_, ?_⟩
  · intro d h
    show findOne (updateFirst (matchesUserId u) _ s) u = _
    unfold findOne at h ⊢
    rw [find?_updateFirst _ _ _ (fun x hx => by simpa [matchesUserId] using hx), h]
    rfl
  · intro v hv
    show (updateFirst (matchesUserId u) _ s).filter (matchesUserId v) = _
    apply filter_updateFirst
    intro x hx
    have hxu : x.user_id = u := by simpa [matchesUserId] using hx
    constructor
    · simp only [matchesUserId, beq_eq_false_iff_ne, ne_eq]
      intro hxv; exact hv (hxv.symm.trans hxu)
    · simp only [matchesUserId, beq_eq_false_iff_ne, ne_eq]
      intro hxv; exact hv (hxv.symm.trans hxu)
  · exact updateFirst_length _ _ s
  · intro h
    exact updateFirst_of_find?_none _ _ s h

/-! ## `insertUser` on a complete input -/

/-- C1, as stated, fails: on a collection whose only document has `user_id` 2
the new document is given `user_id` 2 as well, and the read-back returns the
older document, with another name and phone number and a friend list that is
not empty. -/
theorem insertUser_readback_counterexample :
    johny.name.truthy = true ∧ johny.phoneNumber.truthy = true ∧
    (insertUser gapStore 107 johny).result
      = .ok (sampleUser 2 "Chris W" "07900000002" [1]) ∧
    (sampleUser 2 "Chris W" "07900000002" [1]).name ≠ johny.name ∧
    (sampleUser 2 "Chris W" "07900000002" [1]).phoneNumber ≠ johny.phoneNumber ∧
    (sampleUser 2 "Chris W" "07900000002" [1]).friendList ≠ [] := by
  refine ⟨rfl, rfl, rfl, ?_, ?_, ?_⟩ <;> decide

/-- C1, amended: for an input whose `name` and `phoneNumber` are truthy, on a
collection none of whose documents has the `user_id` (document count) + 1,
`insertUser` resolves with a user that has this `user_id`, the input's name and
phone number, the location `{status: false}` with three
`{lat: null, long: null}` pairs and an empty friend list, whatever location,
friend list or `user_id` the input carried; that user is stored last. -/
theorem insertUser_creates (s : Store) (oid : Nat) (user : UserInput)
    (hn : user.name.truthy = true) (hp : user.phoneNumber.truthy = true)
    (hfresh : ∀ d ∈ s, d.user_id ≠ (countDocuments s : Int) + 1) :
    ∃ u, (insertUser s oid user).result = .ok u ∧
      u.user_id = (countDocuments s : Int) + 1 ∧
      u.name = user.name ∧ u.phoneNumber = user.phoneNumber ∧
      u.location = { status := false, start := { lat := none, long := none },
                     current := { lat := none, long := none },
                     end_ := { lat := none, long := none } } ∧
      u.friendList = [] ∧
      (insertUser s oid user).store = s ++ [u] := by
  have hnone : s.find? (matchesUserId ((countDocuments s : Int) + 1)) = none := by
    rw [List.find?_eq_none]
    intro d hd
    simpa [matchesUserId] using hfresh d hd
  refine ⟨{ _id := oid, user_id := (countDocuments s : Int) + 1, name := user.name,
            phoneNumber := user.phoneNumber, location := defaultLocation,
            friendList := [] }, ?_, rfl, rfl, rfl, rfl, rfl, ?_⟩
  · unfold insertUser
    simp only [hn, hp, Bool.not_true, Bool.or_self, Bool.false_eq_true, if_false,
      insertOne, if_true, selectUserById, findOne]
    rw [List.find?_append, hnone]
    simp [List.find?, matchesUserId]
  · unfold insertUser
    simp only [hn, hp, Bool.not_true, Bool.or_self, Bool.false_eq_true, if_false,
      insertOne, if_true, selectUserById, findOne]
    rw [List.find?_append, hnone]
    simp [List.find?, matchesUserId]

/-- Witness of C1, amended: `{name: "Johny English", phoneNumber:
"07900000007"}` on the six-user sample collection gets `user_id` 7. -/
theorem insertUser_creates_witness :
    ∃ u, (insertUser sampleStore 107 johny).result = .ok u ∧
      u.user_id = (countDocuments sampleStore : Int) + 1 ∧
      u.name = johny.name ∧ u.phoneNumber = johny.phoneNumber ∧
      u.location = { status := false, start := { lat := none, long := none },
                     current := { lat := none, long := none },
                     end_ := { lat := none, long := none } } ∧
      u.friendList = [] ∧
      (insertUser sampleStore 107 johny).store = sampleStore ++ [u] :=
  insertUser_creates sampleStore 107 johny rfl rfl (by decide)

/-! ## `fetchFriendList` -/

/-- An id no stored user has is rejected with
`{status: 404, msg: "User not found"}`. -/
theorem fetchFriendList_unknown (s : Store) (id : Int) (h : findOne s id = none) :
    (fetchFriendList s id).result = .error (.http 404 "User not found") ∧
    (fetchFriendList s id).store = s := by
  unfold fetchFriendList selectUserById
  rw [h]
  exact ⟨rfl, rfl⟩

/-- A user whose friend list is not empty gets the stored documents whose
`user_id` occurs in it, in natural order, each without `_id` and
`friendList`. -/
theorem fetchFriendList_nonempty (s : Store) (id : Int) (d : User)
    (h : findOne s id = some d) (hne : d.friendList ≠ []) :
    (fetchFriendList s id).result
      = .ok ((s.filter (fun x => decide (x.user_id ∈ d.friendList))).map stripInternal) ∧
    (fetchFriendList s id).store = s := by
  have hmap : ∀ l : List Int, l.map (fun friend => (friend : Int)) = l := by
    intro l; induction l with
    | nil => rfl
    | cons x xs ih => simp
  unfold fetchFriendList selectUserById
  rw [h]
  simp only [hmap]
  cases hf : d.friendList with
  | nil => exact absurd hf hne
  | cons a as =>
    have hfilter : (fun x : User => (a :: as).any (fun n => matchesUserId n x))
        = (fun x : User => decide (x.user_id ∈ a :: as)) := by
      funext x
      by_cases hx : x.user_id ∈ a :: as
      · have hx2 := hx
        simp only [List.mem_cons] at hx2
        simp only [hx, decide_True, List.any_eq_true, matchesUserId, beq_iff_eq]
        rcases hx2 with hx2 | hx2
        · exact ⟨a, List.mem_cons_self _ _, hx2⟩
        · exact ⟨x.user_id, hx, rfl⟩
      · simp only [hx, decide_False]
        rw [Bool.eq_false_iff]
        intro hany
        simp only [List.any_eq_true, matchesUserId, beq_iff_eq] at hany
        obtain ⟨n, hn, hxn⟩ := hany
        exact hx (hxn ▸ hn)
    simp only [findOr, hfilter, and_self]

/-- A user whose friend list is empty is answered with the server error for
an empty `$or` array, not with an empty sequence. -/
theorem fetchFriendList_no_friends (s : Store) (id : Int) (d : User)
    (h : findOne s id = some d) (he : d.friendList = []) :
    (fetchFriendList s id).result = .error .serverError := by
  unfold fetchFriendList selectUserById
  rw [h]
  simp [he, findOr]

/-- C8, where the code departs from it: user 7, just registered through
`insertUser` and so with an empty friend list, does not get the empty sequence
from `fetchFriendList` but the server error; user 6, with the friends
`[2, 3, 4]`, gets the summaries of users 2, 3 and 4. -/
theorem fetchFriendList_empty_rejects :
    (findOne sampleStore7 7).map (fun d => d.friendList) = some [] ∧
    (fetchFriendList sampleStore7 7).result = .error .serverError ∧
    (fetchFriendList sampleStore7 7).result ≠ .ok [] ∧
    (fetchFriendList sampleStore7 6).result
      = .ok [ stripInternal
                { sampleUser 2 "Chris W" "07900000002" [1] with
                  location := { status := true, start := ⟨some 53, some (-1)⟩,
                                current := ⟨some 54, some (-1)⟩,
                                end_ := ⟨some 55, some (-2)⟩ } },
              stripInternal (sampleUser 3 "Chris L" "07900000003" [1, 2]),
              stripInternal (sampleUser 4 "Aminah" "07900000004" []) ] := by
  refine ⟨rfl, rfl, ?_, rfl⟩
  intro h
  have h2 : (fetchFriendList sampleStore7 7).result = .error .serverError := rfl
  rw [h2] at h
  cases h

/-! ## The location invariant -/

theorem selectUserById_store (s : Store) (id : Int) : (selectUserById s id).store = s := by
  unfold selectUserById
  cases findOne s id <;> rfl

theorem insertUser_store (s : Store) (oid : Nat) (user : UserInput) :
    (insertUser s oid user).store = s ∨
    ∃ doc : User, doc.location = defaultLocation ∧ (insertUser s oid user).store = s ++ [doc] := by
  unfold insertUser
  by_cases hc : (!user.name.truthy || !user.phoneNumber.truthy) = true
  · left; rw [if_pos hc]
  · right
    rw [if_neg hc]
    exact ⟨{ _id := oid, user_id := (countDocuments s : Int) + 1, name := user.name,
             phoneNumber := user.phoneNumber, location := defaultLocation,
             friendList := [] }, rfl, by simp [insertOne, selectUserById_store]⟩

theorem insertUser_keeps (s : Store) (oid : Nat) (user : UserInput)
    (h : LocationInvariant s) : LocationInvariant (insertUser s oid user).store := by
  rcases insertUser_store s oid user with hs | ⟨doc, hdoc, hs⟩
  · rw [hs]; exact h
  · rw [hs]
    intro d hd
    rcases List.mem_append.mp hd with hd | hd
    · exact h d hd
    · have : d = doc := by simpa using hd
      rw [this]
      simp [locationOk, hdoc, defaultLocation, nullCoord]

theorem updateUserFriends_keeps (s : Store) (id new_id : Int)
    (h : LocationInvariant s) : LocationInvariant (updateUserFriends s id new_id).store := by
  unfold updateUserFriends
  cases hr : (selectUserById s id).result with
  | error e => exact h
  | ok user =>
    show LocationInvariant (updateFirst (matchesUserId id) _ s)
    apply updateFirst_all _ _ locationOk s h
    intro d hd
    exact h d (List.mem_of_find?_eq_some hd)

theorem updateLocation_keeps (s : Store) (status : JSValue) (start end_ : Option Coord)
    (user_id : Int) (h : LocationInvariant s) :
    LocationInvariant (updateLocation s status start end_ user_id).store := by
  unfold updateLocation
  by_cases hs : status.truthy = true
  · simp only [hs, Bool.not_true, Bool.false_eq_true, if_false]
    cases start with
    | none => exact h
    | some st =>
      cases end_ with
      | none => exact h
      | some en =>
        show LocationInvariant (updateFirst (matchesUserId user_id) _ s)
        apply updateFirst_all _ _ locationOk s h
        intro d _
        simp [locationOk]
  · simp only [Bool.not_eq_true] at hs
    simp only [hs, Bool.not_false, if_true]
    show LocationInvariant (updateFirst (matchesUserId user_id) _ s)
    apply updateFirst_all _ _ locationOk s h
    intro d _
    simp [locationOk, defaultLocation, nullCoord]

theorem updateCurrentLocation_keeps (s : Store) (user_id : Int) (current : Coord)
    (h : LocationInvariant s)
    (hk : (Op.updateCurrentLocation user_id current).keepsReset s = true) :
    LocationInvariant (updateCurrentLocation s user_id current).store := by
  show LocationInvariant (updateFirst (matchesUserId user_id) _ s)
  apply updateFirst_all _ _ locationOk s h
  intro d hd
  have hd2 : findOne s user_id = some d := hd
  have hok := h d (List.mem_of_find?_eq_some hd)
  simp only [Op.keepsReset, hd2, Bool.or_eq_true, beq_iff_eq] at hk
  simp only [locationOk, Bool.or_eq_true, Bool.and_eq_true, beq_iff_eq] at hok ⊢
  rcases hk with hk | hk
  · rcases hok with hok | hok
    · exact Or.inl hok
    · exact Or.inr ⟨⟨hok.1.1, hk⟩, hok.2⟩
  · exact Or.inl hk

theorem apply_keeps (s : Store) (op : Op) (h : LocationInvariant s)
    (hk : op.keepsReset s = true) : LocationInvariant (op.apply s) := by
  cases op with
  | insertUser oid user => exact insertUser_keeps s oid user h
  | updateUserFriends id new_id => exact updateUserFriends_keeps s id new_id h
  | updateLocation status start end_ user_id =>
    exact updateLocation_keeps s status start end_ user_id h
  | updateCurrentLocation user_id current =>
    exact updateCurrentLocation_keeps s user_id current h hk

/-- C10, as stated, fails: the sample collection satisfies the location
invariant, user 1 has `status` `false`, and one `updateCurrentLocation` call
for user 1 with the pair `(1, 1)` leaves a collection that does not. -/
theorem locationInvariant_counterexample :
    LocationInvariant sampleStore ∧
    ¬ LocationInvariant (run sampleStore [.updateCurrentLocation 1 ⟨some 1, some 1⟩]) := by
  constructor <;> decide

/-- C10, amended: from a collection that satisfies the location invariant,
any sequence of `insertUser`, `updateUserFriends` and `updateLocation` calls,
with any arguments and resolved or rejected, and of `updateCurrentLocation`
calls that pass `{lat: null, long: null}` or address no user or a user whose
`status` is `true` when the call is made, ends in a collection that satisfies
it. -/
theorem locationInvariant_run (s : Store) (ops : List Op)
    (h : LocationInvariant s) (hk : keepsResetAll s ops = true) :
    LocationInvariant (run s ops) := by
  induction ops generalizing s with
  | nil => exact h
  | cons op ops ih =>
    simp only [keepsResetAll, Bool.and_eq_true] at hk
    exact ih (op.apply s) (apply_keeps s op h hk.1) hk.2

/-- Witness of C10, amended: a registration, a rejected registration, a new
friend, a journey start, a rejected start, a position on the journey and a
reset, on the sample collection. -/
theorem locationInvariant_run_witness :
    LocationInvariant sampleStore ∧
    LocationInvariant (run sampleStore
      [ .insertUser 107 johny,
        .insertUser 108 { johny with name := .undefined },
        .updateUserFriends 6 1,
        .updateLocation (.bool true) (some ⟨some 1, some 1⟩) (some ⟨some 2, some 2⟩) 6,
        .updateLocation (.bool true) none (some ⟨some 2, some 2⟩) 1,
        .updateCurrentLocation 6 ⟨some 1, some 2⟩,
        .updateLocation (.bool false) none none 6,
        .updateCurrentLocation 99 ⟨some 1, some 2⟩ ]) :=
  ⟨by decide, locationInvariant_run sampleStore _ (by decide) (by decide)⟩

end SafeJourney
